import Mathlib

/-!
Shallow embedding of `scripts/mock-sysaibox/server.py`, the mock device
authorization server: the `device_codes` store and the four handlers that
touch it (`device_start`, `device_status`, `approve`, `device_token`).

Modelling conventions:
- A Python dict (insertion ordered, unique keys) is an association list
  `List (String × PairingRecord)`; `dictGet` models `d[k]` / `k in d`,
  `dictInsert` models `d[k] = v` (update in place keeps the position,
  a new key is appended at the end).
- `time.time()` values are passed in explicitly as `Int` timestamps.
- The random outputs of `uuid.uuid4()` (the device code, the hex string
  for the user code, the token bodies) are explicit parameters of the
  handlers: the handlers are deterministic in them.
- Python `str.upper()` is `pyUpper` (per-character ASCII uppercase).
- Statuses are the literal strings the server stores: "pending",
  "authorized"; `device_status` can also answer "expired".
-/

namespace MockServer

/-- One value of the `device_codes` dict: the fields written by
`device_start` in server.py. -/
structure PairingRecord where
  user_code : String
  status : String
  created : Int
  expires_in : Int
deriving Repr, DecidableEq

/-- The `device_codes` dict, as an insertion-ordered association list. -/
abbrev Store := List (String × PairingRecord)

/-- Dict lookup `device_codes[k]` (also `k in device_codes`). -/
def dictGet (s : Store) (k : String) : Option PairingRecord :=
  match s with
  | [] => none
  | (k0, v0) :: rest => if k0 = k then some v0 else dictGet rest k

/-- Dict assignment `device_codes[k] = v`: an existing key keeps its
position, a fresh key is appended. -/
def dictInsert (s : Store) (k : String) (v : PairingRecord) : Store :=
  match s with
  | [] => [(k, v)]
  | (k0, v0) :: rest =>
    if k0 = k then (k, v) :: rest else (k0, v0) :: dictInsert rest k v

/-- Python `str.upper()` on the ASCII strings this server handles. -/
def pyUpper (s : String) : String := String.mk (s.data.map Char.toUpper)

/-- JSON body returned by `device_start`. -/
structure StartResponse where
  device_code : String
  user_code : String
  expires_in : Int
  interval : Int
deriving Repr, DecidableEq

/-- `f"SWIFT-{uuid.uuid4().hex[:4].upper()}"`, with the random
`uuid4().hex` value passed in as a list of characters. -/
def mkUserCode (hex : List Char) : String :=
  "SWIFT-" ++ String.mk ((hex.take 4).map Char.toUpper)

/-- Handler `device_start` (server.py lines 100-120): builds the fresh
codes, stores a pending record with `created = now`, and returns the
JSON body.  `freshDeviceCode` is `str(uuid.uuid4())` and `hex` is
`uuid.uuid4().hex`, both produced by the random source. -/
def device_start (s : Store) (freshDeviceCode : String) (hex : List Char)
    (now : Int) : StartResponse × Store :=
  let uc := mkUserCode hex
  let r : PairingRecord := ⟨uc, "pending", now, 600⟩
  (⟨freshDeviceCode, uc, 600, 5⟩, dictInsert s freshDeviceCode r)

/-- Handler `device_status` (server.py lines 122-133).  The query
parameter may be absent (`request.args.get` returns `None`), in which
case `None in device_codes` is false and "pending" is returned. -/
def device_status (s : Store) (device_code : Option String) (now : Int) :
    String :=
  match device_code with
  | none => "pending"
  | some dc =>
    match dictGet s dc with
    | none => "pending"
    | some d => if now - d.created > d.expires_in then "expired" else d.status

/-- `device_codes[device_code]['status'] = 'authorized'`. -/
def authorize (d : PairingRecord) : PairingRecord :=
  { d with status := "authorized" }

/-- The `for device_code, data in device_codes.items()` loop of the
`approve` handler, after the query code has been uppercased: the first
record whose `user_code` equals the code is set to "authorized" and the
loop returns success; if none matches, not-found is reported.  The
returned pair is (matched, updated store). -/
def approveLoop : Store → String → Bool × Store
  | [], _ => (false, [])
  | (dc, d) :: rest, code =>
    if d.user_code = code then (true, (dc, authorize d) :: rest)
    else ((approveLoop rest code).1, (dc, d) :: (approveLoop rest code).2)

/-- Handler `approve` (server.py lines 59-82):
`code = request.args.get('code', '').upper()` followed by the scan.
`true` stands for the "Device Authorized" page, `false` for the
"Code Not Found" page. -/
def approve (s : Store) (rawCode : String) : Bool × Store :=
  approveLoop s (pyUpper rawCode)

/-- Outcome of the `device_token` handler: either the 200 JSON body or
the 400 error body. -/
inductive TokenResult where
  | ok (access_token refresh_token : String) (expires_in : Int)
  | err (httpStatus : Int) (error : String)
deriving Repr, DecidableEq

def TokenResult.isOk : TokenResult → Bool
  | .ok _ _ _ => true
  | .err _ _ => false

/-- Handler `device_token` (server.py lines 135-153).  `device_code` is
`body.get('device_code')` (absent gives `None`); `hex1`, `hex2` are the
two `uuid.uuid4().hex` draws used to build the tokens.  The store is
returned unchanged because the handler never assigns into
`device_codes`. -/
def device_token (s : Store) (device_code : Option String)
    (hex1 hex2 : String) : TokenResult × Store :=
  match device_code with
  | none => (.err 400 "not_authorized", s)
  | some dc =>
    match dictGet s dc with
    | some d =>
      if d.status = "authorized" then
        (.ok ("access_" ++ hex1) ("refresh_" ++ hex2) 3600, s)
      else (.err 400 "not_authorized", s)
    | none => (.err 400 "not_authorized", s)

/-- The states of `device_codes` reachable from the empty dict through
the four handlers, for arbitrary outputs of the random source and
arbitrary request data. -/
inductive Reachable : Store → Prop where
  | init : Reachable []
  | step_start (s : Store) (dc : String) (hex : List Char) (now : Int) :
      Reachable s → Reachable (device_start s dc hex now).2
  | step_approve (s : Store) (raw : String) :
      Reachable s → Reachable (approve s raw).2
  | step_token (s : Store) (dc : Option String) (h1 h2 : String) :
      Reachable s → Reachable (device_token s dc h1 h2).2

/-- The lowercase hexadecimal alphabet of `uuid.uuid4().hex`. -/
def hexLowerChars : List Char := "0123456789abcdef".data

/-- An uppercase alphanumeric ASCII character. -/
def isUpperAlnum (c : Char) : Bool := c.isDigit || c.isUpper

end MockServer

namespace MockServer

/-! Helper lemmas. -/

theorem dictGet_append_of_not_key (pre rest : Store) (k : String)
    (h : ∀ p ∈ pre, p.1 ≠ k) :
    dictGet (pre ++ rest) k = dictGet rest k := by
  induction pre with
  | nil => rfl
  | cons p pre ih =>
    obtain ⟨k0, v0⟩ := p
    have hk0 : k0 ≠ k := h (k0, v0) (List.mem_cons_self _ _)
    simp only [List.cons_append, dictGet, if_neg hk0]
    exact ih fun q hq => h q (List.mem_cons_of_mem _ hq)

theorem dictInsert_of_not_key (s : Store) (k : String) (v : PairingRecord)
    (h : dictGet s k = none) : dictInsert s k v = s ++ [(k, v)] := by
  induction s with
  | nil => rfl
  | cons p rest ih =>
    obtain ⟨k0, v0⟩ := p
    by_cases hk : k0 = k
    · simp [dictGet, if_pos hk] at h
    · simp only [dictGet, if_neg hk] at h
      simp only [dictInsert, if_neg hk, List.cons_append, ih h]

theorem approveLoop_no_match (s : Store) (c : String)
    (h : ∀ p ∈ s, p.2.user_code ≠ c) : approveLoop s c = (false, s) := by
  induction s with
  | nil => rfl
  | cons p rest ih =>
    obtain ⟨dc, d⟩ := p
    have hd : d.user_code ≠ c := h (dc, d) (List.mem_cons_self _ _)
    have ihrest := ih fun q hq => h q (List.mem_cons_of_mem _ hq)
    simp only [approveLoop, if_neg hd, ihrest]

theorem approveLoop_first_match (pre rest : Store) (dc : String)
    (d : PairingRecord) (c : String)
    (hpre : ∀ p ∈ pre, p.2.user_code ≠ c) (hd : d.user_code = c) :
    approveLoop (pre ++ (dc, d) :: rest) c =
      (true, pre ++ (dc, authorize d) :: rest) := by
  induction pre with
  | nil => simp only [List.nil_append, approveLoop, if_pos hd]
  | cons p pre ih =>
    obtain ⟨dc0, d0⟩ := p
    have hd0 : d0.user_code ≠ c := hpre (dc0, d0) (List.mem_cons_self _ _)
    have ihpre := ih fun q hq => hpre q (List.mem_cons_of_mem _ hq)
    simp only [List.cons_append, approveLoop, if_neg hd0, List.append_eq,
      ihpre]

theorem approveLoop_matched_iff (s : Store) (c : String) :
    (approveLoop s c).1 = true ↔ ∃ p ∈ s, p.2.user_code = c := by
  induction s with
  | nil => simp [approveLoop]
  | cons p rest ih =>
    obtain ⟨dc, d⟩ := p
    by_cases hd : d.user_code = c
    · simp [approveLoop, if_pos hd]
      exact Or.inl hd
    · simp only [approveLoop, if_neg hd, List.mem_cons, ih]
      constructor
      · rintro ⟨q, hq, hq2⟩
        exact ⟨q, Or.inr hq, hq2⟩
      · rintro ⟨q, hq | hq, hq2⟩
        · subst hq; exact absurd hq2 hd
        · exact ⟨q, hq, hq2⟩

theorem approveLoop_matched_decomp (s : Store) (c : String)
    (h : (approveLoop s c).1 = true) :
    ∃ pre dc d rest, s = pre ++ (dc, d) :: rest ∧ d.user_code = c ∧
      (∀ q ∈ pre, q.2.user_code ≠ c) ∧
      (approveLoop s c).2 = pre ++ (dc, authorize d) :: rest := by
  induction s with
  | nil => simp [approveLoop] at h
  | cons p rest ih =>
    obtain ⟨dc0, d0⟩ := p
    by_cases hd : d0.user_code = c
    · refine ⟨[], dc0, d0, rest, rfl, hd, by simp, ?_⟩
      simp [approveLoop, if_pos hd]
    · simp only [approveLoop, if_neg hd] at h
      obtain ⟨pre, dc, d, rest2, hs, hdc, hpre, hres⟩ := ih h
      refine ⟨(dc0, d0) :: pre, dc, d, rest2, by rw [hs]; rfl, hdc, ?_, ?_⟩
      · intro q hq
        rcases List.mem_cons.mp hq with hq | hq
        · subst hq; exact hd
        · exact hpre q hq
      · simp only [approveLoop, if_neg hd, hres, List.cons_append]

end MockServer

namespace MockServer

/-! Claim theorems. -/

/-- Claim C1, counterexample: a record whose stored status is
"authorized" and whose age (1000s) exceeds its TTL (600s) is reported
"expired" by `device_status`, although the claim says `Expired` is
returned only when the stored status is `Pending` and an `Authorized`
record is never reported expired by age alone. -/
theorem getStatus_authorized_reported_expired :
    dictGet [("dc1", ⟨"SWIFT-AAAA", "authorized", 0, 600⟩)] "dc1" =
      some ⟨"SWIFT-AAAA", "authorized", 0, 600⟩ ∧
    device_status [("dc1", ⟨"SWIFT-AAAA", "authorized", 0, 600⟩)]
      (some "dc1") 1000 = "expired" := by
  exact ⟨rfl, rfl⟩

/-- Claim C1, amended: for every found record, `device_status` answers
"expired" whenever the record's age exceeds `expires_in`, regardless of
the stored status, and answers the stored status unchanged otherwise. -/
theorem getStatus_found_spec (s : Store) (dc : String) (now : Int)
    (d : PairingRecord) (h : dictGet s dc = some d) :
    device_status s (some dc) now =
      if now - d.created > d.expires_in then "expired" else d.status := by
  simp only [device_status, h]

/-- Witness for `getStatus_found_spec` at a concrete store. -/
theorem getStatus_found_spec_witness :
    dictGet [("dc1", ⟨"SWIFT-AAAA", "authorized", 0, 600⟩)] "dc1" =
      some ⟨"SWIFT-AAAA", "authorized", 0, 600⟩ ∧
    device_status [("dc1", ⟨"SWIFT-AAAA", "authorized", 0, 600⟩)]
      (some "dc1") 100 =
      if (100 : Int) - 0 > 600 then "expired" else "authorized" :=
  ⟨rfl, getStatus_found_spec [("dc1", ⟨"SWIFT-AAAA", "authorized", 0, 600⟩)]
    "dc1" 100 ⟨"SWIFT-AAAA", "authorized", 0, 600⟩ rfl⟩

/-- Claim C2: `device_token` answers the 200 body with the two fresh
tokens and `expires_in = 3600` when the device code is present in the
store with stored status "authorized", and the 400 body
`not_authorized` in every other case (other status, absent record,
absent parameter). -/
theorem redeemToken_spec (s : Store) (dcOpt : Option String)
    (h1 h2 : String) :
    ((∃ dc d, dcOpt = some dc ∧ dictGet s dc = some d ∧
        d.status = "authorized") →
      (device_token s dcOpt h1 h2).1 =
        .ok ("access_" ++ h1) ("refresh_" ++ h2) 3600) ∧
    ((¬ ∃ dc d, dcOpt = some dc ∧ dictGet s dc = some d ∧
        d.status = "authorized") →
      (device_token s dcOpt h1 h2).1 = .err 400 "not_authorized") := by
  constructor
  · rintro ⟨dc, d, rfl, hget, hst⟩
    simp [device_token, hget, hst]
  · intro hno
    rcases dcOpt with _ | dc
    · rfl
    · rcases hget : dictGet s dc with _ | d
      · simp [device_token, hget]
      · have hst : d.status ≠ "authorized" := fun hst =>
          hno ⟨dc, d, rfl, hget, hst⟩
        simp [device_token, hget, hst]

/-- Witness for `redeemToken_spec` at a concrete store. -/
theorem redeemToken_spec_witness :
    ((∃ dc d, (some "dc1" : Option String) = some dc ∧
        dictGet [("dc1", ⟨"SWIFT-AAAA", "authorized", 0, 600⟩)] dc =
          some d ∧ d.status = "authorized") →
      (device_token [("dc1", ⟨"SWIFT-AAAA", "authorized", 0, 600⟩)]
          (some "dc1") "x" "y").1 =
        .ok ("access_" ++ "x") ("refresh_" ++ "y") 3600) ∧
    ((¬ ∃ dc d, (some "dc1" : Option String) = some dc ∧
        dictGet [("dc1", ⟨"SWIFT-AAAA", "authorized", 0, 600⟩)] dc =
          some d ∧ d.status = "authorized") →
      (device_token [("dc1", ⟨"SWIFT-AAAA", "authorized", 0, 600⟩)]
          (some "dc1") "x" "y").1 = .err 400 "not_authorized") :=
  redeemToken_spec _ _ "x" "y"

/-- Claim C3: `device_token` returns the store unchanged (no record
field is modified), and a second call right after a successful one
succeeds again. -/
theorem redeemToken_frame_and_repeat (s : Store) (dcOpt : Option String)
    (h1 h2 h3 h4 : String) :
    (device_token s dcOpt h1 h2).2 = s ∧
    ((device_token s dcOpt h1 h2).1.isOk = true →
      (device_token (device_token s dcOpt h1 h2).2 dcOpt h3 h4).1.isOk =
        true) := by
  have hframe : (device_token s dcOpt h1 h2).2 = s := by
    rcases dcOpt with _ | dc
    · rfl
    · rcases hget : dictGet s dc with _ | d
      · simp [device_token, hget]
      · by_cases hst : d.status = "authorized" <;>
          simp [device_token, hget, hst]
  refine ⟨hframe, fun hok => ?_⟩
  rw [hframe]
  rcases dcOpt with _ | dc
  · simp [device_token, TokenResult.isOk] at hok
  · rcases hget : dictGet s dc with _ | d
    · simp [device_token, hget, TokenResult.isOk] at hok
    · by_cases hst : d.status = "authorized"
      · simp [device_token, hget, hst, TokenResult.isOk]
      · simp [device_token, hget, hst, TokenResult.isOk] at hok

/-- Witness for `redeemToken_frame_and_repeat` at a concrete store. -/
theorem redeemToken_frame_and_repeat_witness :
    (device_token [("dc1", ⟨"SWIFT-AAAA", "authorized", 0, 600⟩)]
        (some "dc1") "a" "b").2 =
      [("dc1", ⟨"SWIFT-AAAA", "authorized", 0, 600⟩)] ∧
    ((device_token [("dc1", ⟨"SWIFT-AAAA", "authorized", 0, 600⟩)]
        (some "dc1") "a" "b").1.isOk = true →
      (device_token
          (device_token [("dc1", ⟨"SWIFT-AAAA", "authorized", 0, 600⟩)]
            (some "dc1") "a" "b").2 (some "dc1") "c" "d").1.isOk = true) :=
  redeemToken_frame_and_repeat _ _ "a" "b" "c" "d"

/-- Claim C4: `approve` uppercases the submitted code and reports
success exactly when some stored record carries that `user_code`; on
success the first matching record in insertion order has its status set
to "authorized" (whatever its previous status was) and every other
record is untouched. -/
theorem approve_spec (s : Store) (raw : String) :
    ((approve s raw).1 = true ↔ ∃ p ∈ s, p.2.user_code = pyUpper raw) ∧
    ((approve s raw).1 = true →
      ∃ pre dc d rest, s = pre ++ (dc, d) :: rest ∧
        d.user_code = pyUpper raw ∧
        (∀ q ∈ pre, q.2.user_code ≠ pyUpper raw) ∧
        (approve s raw).2 = pre ++ (dc, authorize d) :: rest) :=
  ⟨approveLoop_matched_iff s (pyUpper raw),
   approveLoop_matched_decomp s (pyUpper raw)⟩

/-- Witness for `approve_spec` at a concrete store and a lowercase
submission. -/
theorem approve_spec_witness :
    ((approve [("dc1", ⟨"SWIFT-AB12", "pending", 0, 600⟩)]
        "swift-ab12").1 = true ↔
      ∃ p ∈ [("dc1", (⟨"SWIFT-AB12", "pending", 0, 600⟩ : PairingRecord))],
        p.2.user_code = pyUpper "swift-ab12") ∧
    ((approve [("dc1", ⟨"SWIFT-AB12", "pending", 0, 600⟩)]
        "swift-ab12").1 = true →
      ∃ pre dc d rest,
        [("dc1", (⟨"SWIFT-AB12", "pending", 0, 600⟩ : PairingRecord))] =
          pre ++ (dc, d) :: rest ∧
        d.user_code = pyUpper "swift-ab12" ∧
        (∀ q ∈ pre, q.2.user_code ≠ pyUpper "swift-ab12") ∧
        (approve [("dc1", ⟨"SWIFT-AB12", "pending", 0, 600⟩)]
            "swift-ab12").2 = pre ++ (dc, authorize d) :: rest) :=
  approve_spec [("dc1", ⟨"SWIFT-AB12", "pending", 0, 600⟩)] "swift-ab12"

/-- Claim C5, counterexample: a pending record older than its TTL is
approved successfully, yet `device_status` on its device code then
answers "expired", not "authorized". -/
theorem approve_then_status_expired :
    (approve [("dc1", ⟨"SWIFT-AAAA", "pending", 0, 600⟩)]
        "SWIFT-AAAA").1 = true ∧
    device_status
        (approve [("dc1", ⟨"SWIFT-AAAA", "pending", 0, 600⟩)]
          "SWIFT-AAAA").2 (some "dc1") 1000 = "expired" := by
  decide

/-- Claim C5, amended: after a successful `approve` of a record's
user code, `device_status` on the corresponding device code answers
"authorized", provided the record is the first in insertion order
bearing that user code, its age does not exceed `expires_in` at the
status check, and (as a Python dict guarantees) the stored device codes
are pairwise distinct. -/
theorem approve_then_status_authorized (pre rest : Store) (dc : String)
    (d : PairingRecord) (uc : String) (now : Int)
    (hkeys : ((pre ++ (dc, d) :: rest).map Prod.fst).Nodup)
    (hmatch : d.user_code = pyUpper uc)
    (hpre : ∀ q ∈ pre, q.2.user_code ≠ pyUpper uc)
    (hfresh : now - d.created ≤ d.expires_in) :
    (approve (pre ++ (dc, d) :: rest) uc).1 = true ∧
    device_status (approve (pre ++ (dc, d) :: rest) uc).2 (some dc) now =
      "authorized" := by
  have hres := approveLoop_first_match pre rest dc d (pyUpper uc) hpre hmatch
  unfold approve
  rw [hres]
  refine ⟨rfl, ?_⟩
  have hdisj : List.Disjoint (pre.map Prod.fst)
      (((dc, d) :: rest).map Prod.fst) := by
    rw [List.map_append] at hkeys
    exact List.disjoint_of_nodup_append hkeys
  have hdc : ∀ p ∈ pre, p.1 ≠ dc := by
    intro p hp heq
    exact hdisj (List.mem_map_of_mem Prod.fst hp) (by rw [heq]; simp)
  have hget2 : dictGet (pre ++ (dc, authorize d) :: rest) dc =
      some (authorize d) := by
    rw [dictGet_append_of_not_key _ _ _ hdc]
    simp [dictGet]
  have hnot : ¬ now - (authorize d).created > (authorize d).expires_in :=
    not_lt.mpr hfresh
  simp only [device_status, hget2, if_neg hnot]
  rfl

/-- Witness for `approve_then_status_authorized` at a concrete store. -/
theorem approve_then_status_authorized_witness :
    (approve [("dc1", ⟨"SWIFT-AAAA", "pending", 0, 600⟩)]
        "swift-aaaa").1 = true ∧
    device_status
        (approve [("dc1", ⟨"SWIFT-AAAA", "pending", 0, 600⟩)]
          "swift-aaaa").2 (some "dc1") 10 = "authorized" :=
  approve_then_status_authorized [] [] "dc1"
    ⟨"SWIFT-AAAA", "pending", 0, 600⟩ "swift-aaaa" 10
    (by decide) (by decide) (by decide) (by decide)

/-- Uppercasing any lowercase hexadecimal character yields an uppercase
alphanumeric character. -/
theorem toUpper_hex_mem :
    ∀ c ∈ hexLowerChars, isUpperAlnum c.toUpper = true := by
  decide

/-- Claim C6: `device_start` always succeeds; given a device code not
yet in the store (as `uuid.uuid4()` guarantees up to collision) it
appends exactly one record with status "pending" and `created = now`,
and returns that device code, a user code "SWIFT-" followed by 4
uppercase alphanumeric characters, `expires_in = 600` and
`interval = 5`. -/
theorem startPairing_spec (s : Store) (dc : String) (hex : List Char)
    (now : Int) (hfresh : dictGet s dc = none) (hlen : 4 ≤ hex.length)
    (hhex : ∀ c ∈ hex, c ∈ hexLowerChars) :
    (device_start s dc hex now).1 = ⟨dc, mkUserCode hex, 600, 5⟩ ∧
    (device_start s dc hex now).2 =
      s ++ [(dc, ⟨mkUserCode hex, "pending", now, 600⟩)] ∧
    mkUserCode hex = "SWIFT-" ++ String.mk ((hex.take 4).map Char.toUpper) ∧
    ((hex.take 4).map Char.toUpper).length = 4 ∧
    ∀ c ∈ (hex.take 4).map Char.toUpper, isUpperAlnum c = true := by
  refine ⟨rfl, ?_, rfl, ?_, ?_⟩
  · exact dictInsert_of_not_key s dc _ hfresh
  · rw [List.length_map, List.length_take]
    omega
  · intro c hc
    rw [List.mem_map] at hc
    obtain ⟨c0, hc0, rfl⟩ := hc
    exact toUpper_hex_mem c0 (hhex c0 (List.take_subset 4 hex hc0))

/-- Witness for `startPairing_spec` on the empty store. -/
theorem startPairing_spec_witness :
    (device_start [] "dc1" ['0', 'a', '1', 'b'] 0).1 =
      ⟨"dc1", mkUserCode ['0', 'a', '1', 'b'], 600, 5⟩ ∧
    (device_start [] "dc1" ['0', 'a', '1', 'b'] 0).2 =
      [] ++ [("dc1", ⟨mkUserCode ['0', 'a', '1', 'b'], "pending", 0, 600⟩)] ∧
    mkUserCode ['0', 'a', '1', 'b'] =
      "SWIFT-" ++ String.mk ((['0', 'a', '1', 'b'].take 4).map Char.toUpper) ∧
    ((['0', 'a', '1', 'b'].take 4).map Char.toUpper).length = 4 ∧
    ∀ c ∈ (['0', 'a', '1', 'b'].take 4).map Char.toUpper,
      isUpperAlnum c = true :=
  startPairing_spec [] "dc1" ['0', 'a', '1', 'b'] 0 rfl (by decide)
    (by decide)

/-- Claim C7: `device_status` on a device code absent from the store
answers "pending" instead of an error. -/
theorem getStatus_unknown_pending (s : Store) (dc : String) (now : Int)
    (h : dictGet s dc = none) :
    device_status s (some dc) now = "pending" := by
  simp only [device_status, h]

/-- Witness for `getStatus_unknown_pending` on the empty store. -/
theorem getStatus_unknown_pending_witness :
    dictGet [] "zzz" = none ∧
    device_status [] (some "zzz") 0 = "pending" :=
  ⟨rfl, getStatus_unknown_pending [] "zzz" 0 rfl⟩

/-- Claim C9: when no stored record's user code equals the uppercased
submission, `approve` reports not-found and returns every record
unchanged. -/
theorem approve_unknown_frame (s : Store) (raw : String)
    (h : ∀ p ∈ s, p.2.user_code ≠ pyUpper raw) :
    (approve s raw).1 = false ∧ (approve s raw).2 = s := by
  unfold approve
  rw [approveLoop_no_match s _ h]
  exact ⟨rfl, rfl⟩

/-- Witness for `approve_unknown_frame` at a concrete store. -/
theorem approve_unknown_frame_witness :
    (approve [("dc1", ⟨"SWIFT-AAAA", "pending", 0, 600⟩)]
        "UNKNOWN-CODE").1 = false ∧
    (approve [("dc1", ⟨"SWIFT-AAAA", "pending", 0, 600⟩)]
        "UNKNOWN-CODE").2 =
      [("dc1", ⟨"SWIFT-AAAA", "pending", 0, 600⟩)] :=
  approve_unknown_frame [("dc1", ⟨"SWIFT-AAAA", "pending", 0, 600⟩)]
    "UNKNOWN-CODE" (by decide)

/-- Claim C10: when two stored records carry the same user code,
`approve` of that code succeeds, sets the status of the first matching
record in insertion order to "authorized", and returns every other
record — the later matching one included — exactly as stored. -/
theorem approve_first_of_duplicates (pre mid post : Store)
    (dc1 dc2 : String) (d1 d2 : PairingRecord) (raw : String)
    (hpre : ∀ q ∈ pre, q.2.user_code ≠ pyUpper raw)
    (h1 : d1.user_code = pyUpper raw) (_h2 : d2.user_code = pyUpper raw) :
    approve (pre ++ (dc1, d1) :: (mid ++ (dc2, d2) :: post)) raw =
      (true, pre ++ (dc1, authorize d1) :: (mid ++ (dc2, d2) :: post)) := by
  unfold approve
  exact approveLoop_first_match pre (mid ++ (dc2, d2) :: post) dc1 d1
    (pyUpper raw) hpre h1

/-- Witness for `approve_first_of_duplicates`: two records both carry
"SWIFT-AAAA"; only the first is authorized. -/
theorem approve_first_of_duplicates_witness :
    approve [("dc1", ⟨"SWIFT-AAAA", "pending", 0, 600⟩),
             ("dc2", ⟨"SWIFT-AAAA", "pending", 7, 600⟩)] "SWIFT-AAAA" =
      (true, [("dc1", authorize ⟨"SWIFT-AAAA", "pending", 0, 600⟩),
              ("dc2", ⟨"SWIFT-AAAA", "pending", 7, 600⟩)]) :=
  approve_first_of_duplicates [] [] [] "dc1" "dc2"
    ⟨"SWIFT-AAAA", "pending", 0, 600⟩ ⟨"SWIFT-AAAA", "pending", 7, 600⟩
    "SWIFT-AAAA" (by decide) (by decide) (by decide)

/-- Claim C8, violation exhibited: two `device_start` calls whose
random `uuid4().hex` draws share the first four characters produce a
reachable store holding two records with distinct device codes, equal
user codes "SWIFT-AAAA", and both status "pending" — two live records
sharing a user code, although the claim says live user codes are
unique. -/
theorem userCode_collision_reachable :
    Reachable
      (device_start (device_start [] "dc1"
        ['a', 'a', 'a', 'a', 'b', 'c'] 0).2 "dc2"
        ['a', 'a', 'a', 'a', 'd', 'e'] 3).2 ∧
    (device_start (device_start [] "dc1"
        ['a', 'a', 'a', 'a', 'b', 'c'] 0).2 "dc2"
        ['a', 'a', 'a', 'a', 'd', 'e'] 3).2 =
      [("dc1", ⟨"SWIFT-AAAA", "pending", 0, 600⟩),
       ("dc2", ⟨"SWIFT-AAAA", "pending", 3, 600⟩)] ∧
    "dc1" ≠ "dc2" := by
  refine ⟨?_, by decide, by decide⟩
  exact Reachable.step_start _ "dc2" ['a', 'a', 'a', 'a', 'd', 'e'] 3
    (Reachable.step_start _ "dc1" ['a', 'a', 'a', 'a', 'b', 'c'] 0
      Reachable.init)

end MockServer
